import Mathlib

/-!
Verification development for the `ai_agent` repository.

The definitions below are a shallow embedding of the React client in
`react-client/src/App.js`.  That file contains two client variants:

* the *agent-service* client (`AgentApp` namespace here): its `sendMessage`
  posts the conversation plus an `enabled_tools` name map to the backend
  agent service;
* the *mcpo* client (`McpoApp` namespace here): it aggregates OpenAPI tool
  schemas from configured MCP servers (`fetchAllTools`,
  `processOpenAPISchema`), talks to a chat-completion endpoint directly and
  dispatches the returned tool calls itself.

JavaScript dynamic values are embedded as follows: JSON documents become the
inductive `Json`; a possibly-`undefined`/`null` field becomes an `Option`;
network I/O (`axios.get`/`axios.post`), `JSON.parse` and `JSON.stringify`
become oracle functions supplied in an environment record, with a thrown
exception represented as the `.error` branch of an `Except`.
-/

/-- A JSON value, the type of dynamic data exchanged with servers. -/
inductive Json where
  | null
  | bool (b : Bool)
  | num (n : Int)
  | str (s : String)
  | arr (elems : List Json)
  | obj (fields : List (String × Json))
deriving Inhabited

/-!
JS string primitives, embedded on character lists (`String.data`) so that
concrete instances evaluate inside the kernel.
-/

/-- JS `String.prototype.endsWith`. -/
def strEndsWith (s suffix : String) : Bool :=
  suffix.data.isSuffixOf s.data

/-- Drop the last `n` characters, as the regex-suffix removals of the source
do once the suffix is known to be present. -/
def strDropRight (s : String) (n : Nat) : String :=
  ⟨s.data.take (s.data.length - n)⟩

/-- JS `String.prototype.toLowerCase`, as applied to HTTP method names. -/
def strToLower (s : String) : String :=
  ⟨s.data.map Char.toLower⟩

/-- JS `String.prototype.trim`: strip whitespace from both ends. -/
def strTrim (s : String) : String :=
  ⟨((s.data.dropWhile Char.isWhitespace).reverse.dropWhile Char.isWhitespace).reverse⟩

/-- Worker for `splitOnChar`: accumulates the current segment (reversed). -/
def splitOnCharGo (sep : Char) : List Char → List Char → List String
  | [], acc => [⟨acc.reverse⟩]
  | c :: cs, acc =>
    if c = sep then ⟨acc.reverse⟩ :: splitOnCharGo sep cs []
    else splitOnCharGo sep cs (c :: acc)

/-- JS `String.prototype.split` with a one-character separator. -/
def splitOnChar (sep : Char) (s : String) : List String :=
  splitOnCharGo sep s.data []

/-- JS `String.prototype.replace` with a global one-character pattern. -/
def replaceChar (pat repl : Char) (s : String) : String :=
  ⟨s.data.map fun c => if c = pat then repl else c⟩

/-- One attached file as kept in the `files` React state: `{ name, content }`
(`handleFileChange` reads every selected file as text). -/
structure FileEntry where
  name : String
  content : String
deriving DecidableEq, Repr

/-- The file-context splicing of `sendMessage` (identical in both client
variants):

```js
let apiContent = trimmedInput;
if (files.length > 0) {
  const fileContext = files.map(file =>
    `CONTEXT FROM FILE: $\x7bfile.name\x7d\n\n---\n\n$\x7bfile.content\x7d`
  ).join('\n\n---\n\n');
  apiContent = `$\x7bfileContext\x7d\n\n---\n\nQUESTION:\n$\x7btrimmedInput\x7d`;
}
```
-/
def assembleApiContent (trimmedInput : String) (files : List FileEntry) : String :=
  if files.length > 0 then
    let fileContext := String.intercalate "\n\n---\n\n"
      (files.map fun file => "CONTEXT FROM FILE: " ++ file.name ++ "\n\n---\n\n" ++ file.content)
    fileContext ++ "\n\n---\n\nQUESTION:\n" ++ trimmedInput
  else
    trimmedInput

/-- Modelled from the spec (§4.3): the assembled user content as the spec
words it — per file the template `CONTEXT FROM FILE: \x7bname\x7d` then the
separator then the content, files joined by the separator, the whole block
followed by the separator and `QUESTION:` plus the typed text.  Used to
compare the source's splicing against the spec's description. -/
def specAssembledUserContent (files : List FileEntry) (typedText : String) : String :=
  String.intercalate "\n\n---\n\n"
    (files.map fun f => "CONTEXT FROM FILE: " ++ f.name ++ "\n\n---\n\n" ++ f.content)
  ++ "\n\n---\n\nQUESTION:\n" ++ typedText

/-- The `error.response.data` of a failed axios request, as the catch blocks
inspect it: a plain string, an object with a truthy `error` field (coerced to
text by the template literal), or any other JSON (pretty-printed). -/
inductive ResponseData where
  | str (s : String)
  | withError (e : String)
  | other (j : Json)

/-- A thrown axios/communication error as the catch blocks see it:
`error.response && error.response.data` (collapsed to `responseData`) and
`error.message`. -/
structure AxiosError where
  responseData : Option ResponseData
  message : Option String

/-- The error-message construction shared by both variants' catch blocks:

```js
let errorMsg = 'Error: Could not connect to ...';
if (error.response && error.response.data) \x7b
  if (typeof error.response.data === 'string') errorMsg += `\n$\x7b...\x7d`;
  else if (error.response.data.error) errorMsg += `\n$\x7b...\x7d`;
  else errorMsg += `\n$\x7bJSON.stringify(error.response.data, null, 2)\x7d`;
\x7d else if (error.message) errorMsg += `\n$\x7berror.message\x7d`;
```
-/
def mkConnectErrorMsg (stringify : Json → String) (base : String) (error : AxiosError) : String :=
  match error.responseData with
  | some (.str s) => base ++ "\n" ++ s
  | some (.withError e) => base ++ "\n" ++ e
  | some (.other j) => base ++ "\n" ++ stringify j
  | none =>
    match error.message with
    | some m => base ++ "\n" ++ m
    | none => base

namespace McpoApp

/-- An OpenAPI schema object appearing under `content['application/json']`;
the source reads `.schema['$ref']`, so only the `$ref` key is consulted
(`none` models an inline schema without `$ref`). -/
structure SchemaObject where
  ref : Option String
deriving DecidableEq, Repr

/-- A media-type object: `requestBody.content['application/json']`.  The
source reads `.schema['$ref']` unconditionally, so a media-type object
without a `schema` member (`none` here) makes line 361 throw a TypeError. -/
structure MediaTypeObject where
  schema : Option SchemaObject
deriving DecidableEq, Repr

/-- `operation.requestBody`: `content` may be absent (the source guards
`requestBody.content && requestBody.content['application/json']`). -/
structure RequestBody where
  content : Option (List (String × MediaTypeObject))
deriving DecidableEq, Repr

/-- A component schema under `components.schemas`: the source copies its
`properties` verbatim (possibly `undefined`) and `required || []`. -/
structure ComponentSchema where
  properties : Option Json
  required : Option (List String)

/-- `components.schemas`, the map resolved against `$ref` names. -/
structure ComponentsObject where
  schemas : List (String × ComponentSchema)

/-- One OpenAPI operation object (`schema.paths[path][method]`).  The source
reads `operationId.replace(...)` unconditionally, so an operation without an
`operationId` (`none` here) makes line 355 throw a TypeError; `description ||
summary` and `requestBody` may each be absent. -/
structure Operation where
  operationId : Option String
  description : Option String
  summary : Option String
  requestBody : Option RequestBody
deriving DecidableEq, Repr

/-- The fetched `openapi.json` document: `paths` maps a path to its method
map; `!schema.paths` (an absent `paths` key) is modelled by `none`.  The
source reads `schema.components.schemas` unconditionally once a `$ref` is
met, so an absent `components` (`none` here) makes line 364 throw. -/
structure OpenAPISchema where
  paths : Option (List (String × List (String × Operation)))
  components : Option ComponentsObject

/-- The `parameters` object built for each tool:
`\x7b type: 'object', properties: \x7b\x7d, required: [] \x7d`, possibly
overwritten from a referenced component schema. -/
structure ToolParameters where
  type : String
  properties : Option Json
  required : List String

/-- The default parameters object `\x7b type: 'object', properties: \x7b\x7d,
required: [] \x7d`. -/
def defaultToolParameters : ToolParameters :=
  { type := "object", properties := some (Json.obj []), required := [] }

/-- The `function` member of a processed tool descriptor. -/
structure ToolFunction where
  name : String
  description : Option String
  parameters : ToolParameters

/-- A processed tool descriptor as produced by `processOpenAPISchema` and
carried in the `tools` state.  `function` is optional because the dedup loop
guards `tool.function && ...`; `serverUrl` is attached after processing
(`\x7b ...tool, serverUrl \x7d`). -/
structure Tool where
  type : String
  function : Option ToolFunction
  openapiPath : String
  serverUrl : Option String

/-- `operationId.replace(/_post$/, '')`: strip one trailing `_post`. -/
def stripPostSuffix (s : String) : String :=
  if strEndsWith s "_post" then strDropRight s 5 else s

/-- `.replace(/_/g, '-')` applied after the suffix strip: every `_`
becomes `-`. -/
def normalizeOperationId (operationId : String) : String :=
  replaceChar '_' '-' (stripPostSuffix operationId)

/-- The `parameters` computation of `processOpenAPISchema` for one
operation:

```js
let parameters = \x7b type: 'object', properties: \x7b\x7d, required: [] \x7d;
if (requestBody && requestBody.content && requestBody.content['application/json']) \x7b
  const schemaRef = requestBody.content['application/json'].schema['$ref'];
  if (schemaRef) \x7b
    const schemaName = schemaRef.split('/').pop();
    const componentSchema = schema.components.schemas[schemaName];
    if (componentSchema) \x7b
      parameters.properties = componentSchema.properties;
      parameters.required = componentSchema.required || [];
    \x7d
  \x7d
\x7d
```

The two `.error` branches are the TypeErrors the source throws when the
media-type object lacks a `schema` member or the document lacks
`components` while a `$ref` is being resolved. -/
def operationParameters (schema : OpenAPISchema) (toolInfo : Operation) :
    Except String ToolParameters :=
  match toolInfo.requestBody with
  | none => .ok defaultToolParameters
  | some requestBody =>
    match requestBody.content with
    | none => .ok defaultToolParameters
    | some content =>
      match content.lookup "application/json" with
      | none => .ok defaultToolParameters
      | some mediaType =>
        match mediaType.schema with
        | none => .error "TypeError: Cannot read properties of undefined (reading '$ref')"
        | some schemaObject =>
          match schemaObject.ref with
          | none => .ok defaultToolParameters
          | some schemaRef =>
            let schemaName := (splitOnChar '/' schemaRef).getLastD ""
            match schema.components with
            | none => .error "TypeError: Cannot read properties of undefined (reading 'schemas')"
            | some components =>
              match components.schemas.lookup schemaName with
              | none => .ok defaultToolParameters
              | some componentSchema =>
                .ok { type := "object"
                      properties := componentSchema.properties
                      required := componentSchema.required.getD [] }

/-- The descriptor pushed for one POST operation at `path`.  Line 355 reads
`toolInfo.operationId.replace(...)` first, so a missing `operationId` throws
before anything else; a throw from the parameters computation also
propagates. -/
def mkTool (schema : OpenAPISchema) (path : String) (toolInfo : Operation) :
    Except String Tool :=
  match toolInfo.operationId with
  | none => .error "TypeError: Cannot read properties of undefined (reading 'replace')"
  | some opId =>
    match operationParameters schema toolInfo with
    | .error e => .error e
    | .ok parameters =>
      .ok { type := "function"
            function := some
              { name := normalizeOperationId opId
                description := toolInfo.description.or toolInfo.summary
                parameters := parameters }
            openapiPath := path
            serverUrl := none }

/-- The body of the nested `for` loops: derive one descriptor per listed
POST operation, in order; the first TypeError thrown aborts the walk and
discards the partially built `processed` array. -/
def walkOperations (schema : OpenAPISchema) :
    List (String × Operation) → Except String (List Tool)
  | [] => .ok []
  | (path, toolInfo) :: rest =>
    match mkTool schema path toolInfo with
    | .error e => .error e
    | .ok tool =>
      match walkOperations schema rest with
      | .error e => .error e
      | .ok tools => .ok (tool :: tools)

/-- `processOpenAPISchema(schema)`: returns `[]` for a null schema or a
schema without `paths`; otherwise walks every path's method map deriving one
descriptor per `post` operation.  A TypeError thrown mid-walk (missing
`operationId`, media-type `schema` member, or `components`) propagates to
the caller as the `.error` branch. -/
def processOpenAPISchema (schemaOpt : Option OpenAPISchema) :
    Except String (List Tool) :=
  match schemaOpt with
  | none => .ok []
  | some schema =>
    match schema.paths with
    | none => .ok []
    | some paths =>
      walkOperations schema
        (paths.flatMap fun pathEntry =>
          (pathEntry.2.filter fun methodEntry => strToLower methodEntry.1 == "post").map
            fun methodEntry => (pathEntry.1, methodEntry.2))

/-- `\x7b ...tool, serverUrl \x7d` in `fetchAllTools`: attach the origin
server URL to a processed tool. -/
def attachServer (serverUrl : String) (tool : Tool) : Tool :=
  { tool with serverUrl := some serverUrl }

/-- The per-server aggregation loop of `fetchAllTools`, before dedup:

```js
let allTools = [];
let anyError = false;
for (const serverUrl of mcpoServers) \x7b
  try \x7b
    const response = await axios.get(`...openapi.json`);
    const processedTools = processOpenAPISchema(response.data).map(tool => (\x7b ...tool, serverUrl \x7d));
    allTools = allTools.concat(processedTools);
  \x7d catch (error) \x7b anyError = true; \x7d
\x7d
```

The `fetchSchema` oracle models the `axios.get` of `\x7bserverUrl\x7d/openapi.json`:
`.error` is a thrown fetch error, `.ok` carries `response.data` (possibly
null).  The catch also absorbs a TypeError thrown by
`processOpenAPISchema` mid-walk, marking that provider failed.  Returns the
concatenated tool list and the `anyError` flag. -/
def collectAllTools (fetchSchema : String → Except String (Option OpenAPISchema)) :
    List String → List Tool × Bool
  | [] => ([], false)
  | serverUrl :: rest =>
    let r := collectAllTools fetchSchema rest
    match fetchSchema serverUrl with
    | .ok data =>
      match processOpenAPISchema data with
      | .ok processed => (processed.map (attachServer serverUrl) ++ r.1, r.2)
      | .error _ => (r.1, true)
    | .error _ => (r.1, true)

/-- The dedup loop of `fetchAllTools`, with the `seen` name set made
explicit:

```js
const uniqueTools = [];
const seen = new Set();
for (const tool of allTools) \x7b
  if (tool.function && !seen.has(tool.function.name)) \x7b
    uniqueTools.push(tool);
    seen.add(tool.function.name);
  \x7d
\x7d
```
-/
def dedupLoop : List Tool → List String → List Tool
  | [], _ => []
  | tool :: rest, seen =>
    match tool.function with
    | none => dedupLoop rest seen
    | some f =>
      if seen.contains f.name then dedupLoop rest seen
      else tool :: dedupLoop rest (f.name :: seen)

/-- Deduplicate tools by function name, starting from an empty `seen` set. -/
def dedupTools (allTools : List Tool) : List Tool :=
  dedupLoop allTools []

/-- The outcome of one `fetchAllTools` run: the `uniqueTools` passed to
`setTools`, and the `anyError` flag. -/
structure FetchAllResult where
  tools : List Tool
  anyError : Bool

/-- `fetchAllTools` over the configured server list: per-server fetch with
failures skipped, then dedup by name. -/
def fetchAllTools (fetchSchema : String → Except String (Option OpenAPISchema))
    (mcpoServers : List String) : FetchAllResult :=
  let collected := collectAllTools fetchSchema mcpoServers
  { tools := dedupTools collected.1, anyError := collected.2 }

/-- `anyError && uniqueTools.length === 0`: the condition under which
`fetchAllTools` replaces the chat with the could-not-load-tools error
message. -/
def errorBannerShown (r : FetchAllResult) : Bool :=
  r.anyError && r.tools.isEmpty

/-- One tool call requested by the assistant message:
`\x7b id, function: \x7b name, arguments \x7d \x7d` with `arguments` a JSON
string to be parsed. -/
structure ToolCallFunction where
  name : String
  arguments : String
deriving DecidableEq, Repr

/-- A tool call entry of `botMessage.tool_calls`. -/
structure ToolCall where
  id : String
  function : ToolCallFunction
deriving DecidableEq, Repr

/-- A message of the mcpo client's conversation: role plus optional content,
optional `tool_calls` (assistant messages), optional `tool_call_id`/`name`
(tool-result messages).  Absent JS properties are `none`/`[]`. -/
structure Msg where
  role : String
  content : Option String := none
  tool_calls : List ToolCall := []
  tool_call_id : Option String := none
  name : Option String := none
deriving DecidableEq, Repr

/-- The effectful primitives used by tool dispatch: `JSON.parse` (throws on
malformed input, hence `Except`), `JSON.stringify(·, null, 2)`, and
`axios.post(url, args)` returning response data or a thrown error whose
`message` is the `.error` payload. -/
structure DispatchEnv where
  parseJson : String → Except String Json
  stringify : Json → String
  post : String → Json → Except String Json

/-- Strip one trailing slash: `.replace(/\/$/, '')`. -/
def stripTrailingSlash (s : String) : String :=
  if strEndsWith s "/" then strDropRight s 1 else s

/-- Resolution of the server URL and invocation path for a tool call
(`sendMessage`, dispatch section):

```js
const toolDef = tools.find(t => t.function && t.function.name === toolName);
const serverUrl = toolDef && toolDef.serverUrl ? toolDef.serverUrl.replace(/\/$/, '') : '/mcpo';
const openapiPath = toolDef && toolDef.openapiPath ? toolDef.openapiPath : `/$\x7btoolName\x7d`;
```

JS truthiness: an empty string is falsy, so an empty `serverUrl` or
`openapiPath` falls back like an absent one.  The `find` predicate
`t => t.function && t.function.name === toolName` is `nameMatches`. -/
def nameMatches (toolName : String) (t : Tool) : Bool :=
  match t.function with
  | some f => f.name == toolName
  | none => false

/-- Resolution continued: pick the first matching descriptor and derive the
server URL and invocation path with the `/mcpo` and `/$\x7btoolName\x7d`
fallbacks. -/
def resolveTarget (tools : List Tool) (toolName : String) : String × String :=
  let toolDef := tools.find? (nameMatches toolName)
  let serverUrl :=
    match toolDef with
    | some td =>
      match td.serverUrl with
      | some u => if u = "" then "/mcpo" else stripTrailingSlash u
      | none => "/mcpo"
    | none => "/mcpo"
  let openapiPath :=
    match toolDef with
    | some td => if td.openapiPath = "" then "/" ++ toolName else td.openapiPath
    | none => "/" ++ toolName
  (serverUrl, openapiPath)

/-- `const endpoints = [openapiPath, openapiPath.endsWith('/') ? openapiPath : openapiPath + '/'];` -/
def mkEndpoints (openapiPath : String) : List String :=
  [openapiPath, if strEndsWith openapiPath "/" then openapiPath else openapiPath ++ "/"]

/-- The endpoint retry loop: try each endpoint in order, returning the first
successful response; keep `lastError` across failed attempts (initially
`null`).  Also returns the list of endpoints actually POSTed, for stating
which attempts occur. -/
def tryEndpoints (postTo : String → Except String Json) :
    List String → Option String → Except String Json × List String
  | [], lastError => (.error (lastError.getD "null"), [])
  | endpoint :: rest, _ =>
    match postTo endpoint with
    | .ok data => (.ok data, [endpoint])
    | .error toolError =>
      let r := tryEndpoints postTo rest (some toolError)
      (r.1, endpoint :: r.2)

/-- One entry of the `toolPromises` array: the async arrow function mapped
over `botMessage.tool_calls`.  `JSON.parse(toolCall.function.arguments)` runs
outside the endpoint try/catch, so its failure rejects this call's promise
(the `.error` branch); an invocation failure after both endpoint attempts is
converted to a tool message whose content is the error description.  The
second component of the `.ok` payload is the trace of attempted URLs. -/
def dispatchOne (env : DispatchEnv) (tools : List Tool) (toolCall : ToolCall) :
    Except String (Msg × List String) :=
  let toolName := toolCall.function.name
  match env.parseJson toolCall.function.arguments with
  | .error e => .error e
  | .ok toolArgs =>
    let target := resolveTarget tools toolName
    let serverUrl := target.1
    let endpoints := mkEndpoints target.2
    let attempt := tryEndpoints (fun endpoint => env.post (serverUrl ++ endpoint) toolArgs)
      endpoints none
    match attempt.1 with
    | .ok data =>
      .ok ({ role := "tool", content := some (env.stringify data),
             tool_call_id := some toolCall.id, name := some toolName },
           attempt.2.map (serverUrl ++ ·))
    | .error m =>
      .ok ({ role := "tool", content := some ("Error executing tool: " ++ m),
             tool_call_id := some toolCall.id, name := some toolName },
           attempt.2.map (serverUrl ++ ·))

/-- `await Promise.all(toolPromises)`: if some call's promise rejected (its
arguments failed to parse), the join rejects with the first such reason and
no result list is produced; otherwise the fulfilled results are returned in
`tool_calls` order. -/
def dispatchToolCalls (env : DispatchEnv) (tools : List Tool) (toolCalls : List ToolCall) :
    Except String (List Msg) :=
  let settled := toolCalls.map fun c => dispatchOne env tools c
  match settled.findSome? (fun r => match r with | .error e => some e | .ok _ => none) with
  | some e => .error e
  | none => .ok (settled.filterMap fun r => match r with | .ok x => some x.1 | .error _ => none)

/-- The hard-coded parallel-tool-use system prompt of the mcpo client. -/
def parallelSystemPrompt : Msg :=
  { role := "system"
    content := some "You are an expert AI assistant with the ability to execute tools in parallel. When a user's request involves multiple independent tasks, you should call the necessary tools in a single turn to maximize efficiency. For example, if asked to 'get the weather in New York and London', you should respond with two parallel calls to the `get_weather` tool. Your goal is to identify opportunities for parallel execution and use them whenever possible to provide a faster and more efficient response." }

/-- `JSON.stringify([...get_weather calls...], null, 2)`, the first few-shot
assistant content, written out. -/
def fewShotWeatherContent : String :=
  "[\n  \x7b\n    \"tool_name\": \"get_weather\",\n    \"parameters\": \x7b\n      \"city\": \"New York\"\n    \x7d\n  \x7d,\n  \x7b\n    \"tool_name\": \"get_weather\",\n    \"parameters\": \x7b\n      \"city\": \"London\"\n    \x7d\n  \x7d\n]"

/-- `JSON.stringify([...summarize_article calls...], null, 2)`, the second
few-shot assistant content, written out. -/
def fewShotSummarizeContent : String :=
  "[\n  \x7b\n    \"tool_name\": \"summarize_article\",\n    \"parameters\": \x7b\n      \"url\": \"[URL1]\"\n    \x7d\n  \x7d,\n  \x7b\n    \"tool_name\": \"summarize_article\",\n    \"parameters\": \x7b\n      \"url\": \"[URL2]\"\n    \x7d\n  \x7d\n]"

/-- The fixed `fewShotExamples` message list. -/
def fewShotExamples : List Msg :=
  [ { role := "user", content := some "What's the weather in New York and London?" },
    { role := "assistant", content := some fewShotWeatherContent },
    { role := "user", content := some "Summarize the following articles: [URL1] and [URL2]" },
    { role := "assistant", content := some fewShotSummarizeContent } ]

/-- `apiMessages`: the system prompt, the few-shot examples, the prior
history projected to `\x7b role, content, tool_calls \x7d` (dropping
`tool_call_id`/`name`), then the new user message carrying `apiContent`. -/
def apiMessagesOf (history : List Msg) (apiContent : String) : List Msg :=
  parallelSystemPrompt ::
    (fewShotExamples ++
      history.map (fun msg =>
        { role := msg.role, content := msg.content, tool_calls := msg.tool_calls }) ++
      [{ role := "user", content := some apiContent }])

/-- The chat-completion request body sent to `/v1/chat/completions`. -/
structure ChatPayload where
  model : String
  messages : List Msg
  temperature : ℚ
  tools : Option (List Tool)
  tool_choice : Option String

/-- Payload construction, used identically for the first and the follow-up
call: the `tools` array (each tool with its `serverUrl` spread away) and
`tool_choice: 'auto'` are included only when the aggregated tool list is
non-empty. -/
def mkPayload (tools : List Tool) (messages : List Msg) : ChatPayload :=
  if tools.length > 0 then
    { model := "chat", messages := messages, temperature := (7 : ℚ) / 10
      tools := some (tools.map fun t => { t with serverUrl := none })
      tool_choice := some "auto" }
  else
    { model := "chat", messages := messages, temperature := (7 : ℚ) / 10
      tools := none, tool_choice := none }

/-- The client state touched by `sendMessage` in the mcpo variant. -/
structure AppState where
  messages : List Msg
  input : String
  files : List FileEntry
  tools : List Tool

/-- Externally visible steps of one turn, for counting model invocations and
dispatch rounds. -/
inductive TurnEvent where
  | llmCall
  | dispatchRound
deriving DecidableEq, Repr

/-- The oracles of one turn: the chat-completion endpoint (returning
`response.data.choices[0].message`, or a thrown/protocol error) and the
dispatch primitives. -/
structure TurnEnv where
  llm : ChatPayload → Except AxiosError Msg
  dispatch : DispatchEnv

/-- `sendMessage` of the mcpo client as a state transition: returns the new
state and the trace of model invocations and dispatch rounds.  Mirrors the
source control flow: empty-input guard; first chat call; if the assistant
message carries tool calls, one concurrent dispatch round then the follow-up
chat call whose message is appended as the final output (even if it carries
tool calls itself); errors append an error-bearing assistant message. -/
def sendMessage (env : TurnEnv) (st : AppState) : AppState × List TurnEvent :=
  let trimmedInput := strTrim st.input
  if trimmedInput = "" ∧ st.files = [] then (st, [])
  else
    let userMessageForDisplay : Msg := { role := "user", content := some trimmedInput }
    let currentMessages := st.messages ++ [userMessageForDisplay]
    let apiContent := assembleApiContent trimmedInput st.files
    let apiMessages := apiMessagesOf st.messages apiContent
    let st1 : AppState := { st with messages := currentMessages, input := "", files := [] }
    match env.llm (mkPayload st.tools apiMessages) with
    | .error error =>
      ({ st1 with messages := currentMessages ++
          [{ role := "assistant",
             content := some (mkConnectErrorMsg env.dispatch.stringify
               "Error: Could not connect to the LLM." error) }] },
       [.llmCall])
    | .ok botMessage =>
      if botMessage.tool_calls.length > 0 then
        match dispatchToolCalls env.dispatch st.tools botMessage.tool_calls with
        | .error rejection =>
          ({ st1 with messages := currentMessages ++
              [botMessage,
               { role := "assistant",
                 content := some (mkConnectErrorMsg env.dispatch.stringify
                   "Error: Could not connect to the LLM."
                   { responseData := none, message := some rejection }) }] },
           [.llmCall, .dispatchRound])
        | .ok toolResults =>
          let messagesWithToolResults := apiMessages ++ [botMessage] ++ toolResults
          match env.llm (mkPayload st.tools messagesWithToolResults) with
          | .ok finalBotMessage =>
            ({ st1 with messages :=
                currentMessages ++ [botMessage] ++ toolResults ++ [finalBotMessage] },
             [.llmCall, .dispatchRound, .llmCall])
          | .error _ =>
            ({ st1 with messages := currentMessages ++ [botMessage] ++ toolResults ++
                [{ role := "assistant", content := some "Error during second LLM call." }] },
             [.llmCall, .dispatchRound, .llmCall])
      else
        ({ st1 with messages := currentMessages ++ [botMessage] }, [.llmCall])

end McpoApp

namespace AgentApp

/-- A conversation message of the agent-service client. -/
structure ChatMessage where
  role : String
  content : String
deriving DecidableEq, Repr

/-- One module/server entry of the `tools` state fetched from
`tools-api/get_tools`; only its `name` is consulted by `sendMessage`. -/
structure ModuleInfo where
  name : String
deriving DecidableEq, Repr

/-- The `tools` state: `\x7b langgraph: [...], mcpo: [...] \x7d`. -/
structure ToolsState where
  langgraph : List ModuleInfo
  mcpo : List ModuleInfo
deriving DecidableEq, Repr

/-- The `enabled_tools` member of the request payload: the filtered group
name lists. -/
structure EnabledToolsPayload where
  langgraph : List String
  mcpo : List String
deriving DecidableEq, Repr

/-- The request body POSTed to `agent-service/chat`. -/
structure ChatPayload where
  messages : List ChatMessage
  enabled_tools : EnabledToolsPayload
deriving DecidableEq, Repr

/-- The client state touched by `sendMessage` in the agent-service variant. -/
structure AppState where
  messages : List ChatMessage
  input : String
  files : List FileEntry
  tools : ToolsState
  enabledTools : List (String × Bool)
  systemPrompt : String
  isLoading : Bool
deriving DecidableEq, Repr

/-- The JS truthiness test `enabledTools[name]` on the persisted boolean
map: an absent key reads as `undefined`, which is falsy. -/
def lookupEnabled (enabledTools : List (String × Bool)) (name : String) : Bool :=
  (enabledTools.lookup name).getD false

/-- `enabledLangGraphModules`: the names of the langgraph modules whose
`enabledTools` entry is truthy. -/
def enabledLangGraphModules (st : AppState) : List String :=
  (st.tools.langgraph.filter fun m => lookupEnabled st.enabledTools m.name).map
    fun m => m.name

/-- `enabledMcpoServers`: the names of the mcpo servers whose `enabledTools`
entry is truthy. -/
def enabledMcpoServers (st : AppState) : List String :=
  (st.tools.mcpo.filter fun s => lookupEnabled st.enabledTools s.name).map
    fun s => s.name

/-- The request payload built by `sendMessage`: system prompt, prior history,
the new user message, and the filtered `enabled_tools` name lists. -/
def mkChatPayload (st : AppState) (apiContent : String) : ChatPayload :=
  { messages := { role := "system", content := st.systemPrompt } ::
      (st.messages ++ [{ role := "user", content := apiContent }])
    enabled_tools :=
      { langgraph := enabledLangGraphModules st, mcpo := enabledMcpoServers st } }

/-- The oracle for `axios.post('http://localhost:8080/agent-service/chat')`:
`.ok` carries `response.data.response`, `.error` a thrown axios error. -/
structure AgentEnv where
  chat : ChatPayload → Except AxiosError String
  stringify : Json → String

/-- `sendMessage` of the agent-service client as a state transition; also
returns the payload of the request issued (`none` when the empty-input guard
returns early and no request is made).  The `enabled_tools` lists keep
exactly the module/server names whose `enabledTools` entry is truthy. -/
def sendMessage (env : AgentEnv) (st : AppState) : AppState × Option ChatPayload :=
  let trimmedInput := strTrim st.input
  if trimmedInput = "" ∧ st.files = [] then (st, none)
  else
    let userMessageForDisplay : ChatMessage := { role := "user", content := trimmedInput }
    let currentMessages := st.messages ++ [userMessageForDisplay]
    let apiContent := assembleApiContent trimmedInput st.files
    let payload : ChatPayload := mkChatPayload st apiContent
    match env.chat payload with
    | .ok responseText =>
      ({ st with
          messages := currentMessages ++ [{ role := "assistant", content := responseText }]
          input := "", files := [], isLoading := false },
       some payload)
    | .error error =>
      ({ st with
          messages := currentMessages ++
            [{ role := "assistant",
               content := mkConnectErrorMsg env.stringify
                 "Error: Could not connect to the agent service." error }]
          input := "", files := [], isLoading := false },
       some payload)

end AgentApp

/-!
Concrete fixtures used by the counterexamples and witnesses below.
-/

namespace McpoApp

/-- A component schema with one required `city` property, as a weather-tool
provider would declare. -/
def weatherComponent : ComponentSchema :=
  { properties := some (Json.obj
      [("city", Json.obj [("type", Json.str "string"), ("title", Json.str "City")])])
    required := some ["city"] }

/-- A one-operation capability schema whose POST operation has the given
operation id and a `$ref` request body resolving to `weatherComponent`. -/
def weatherSchema (opId : String) : OpenAPISchema :=
  { paths := some [("/get_weather",
      [("post",
        { operationId := some opId
          description := some "Get the current weather for a city."
          summary := none
          requestBody := some
            { content := some [("application/json",
                { schema := some { ref := some "#/components/schemas/WeatherRequest" } })] } })])]
    components := some { schemas := [("WeatherRequest", weatherComponent)] } }

end McpoApp

namespace McpoApp

/-- Dispatch primitives for the C1 counterexample: `JSON.parse` succeeds only
on the two-character object literal, failing on anything else the way
`JSON.parse('oops')` throws; every POST succeeds. -/
def cex1Env : DispatchEnv :=
  { parseJson := fun s =>
      if s = "\x7b\x7d" then .ok (Json.obj [])
      else .error "Unexpected token o in JSON at position 0"
    stringify := fun _ => "null"
    post := fun _ _ => .ok Json.null }

/-- A well-formed tool call (arguments parse). -/
def cex1CallA : ToolCall :=
  { id := "call_1", function := { name := "get-weather", arguments := "\x7b\x7d" } }

/-- A tool call whose `arguments` string is not valid JSON. -/
def cex1CallB : ToolCall :=
  { id := "call_2", function := { name := "get-weather", arguments := "oops" } }

/-- The result the well-formed sibling call produces when dispatched alone
(fallback path `/mcpo/get-weather`, successful POST). -/
def cex1ResultA : Msg × List String :=
  ({ role := "tool", content := some "null",
     tool_call_id := some "call_1", name := some "get-weather" },
   ["/mcpo/get-weather"])

end McpoApp

namespace McpoApp

/-- Names of the aggregated descriptors (tools without a `function` member
carry no name). -/
def toolNames (tools : List Tool) : List String :=
  tools.filterMap fun t => t.function.map fun f => f.name

/-- Dispatch primitives for the C6 counterexample: arguments always parse and
every POST fails. -/
def cex6Env : DispatchEnv :=
  { parseJson := fun _ => .ok (Json.obj [])
    stringify := fun _ => "null"
    post := fun _ _ => .error "Request failed with status code 404" }

/-- A descriptor whose invocation path already ends in a trailing slash. -/
def cex6Tool : Tool :=
  { type := "function"
    function := some { name := "notes", description := none, parameters := defaultToolParameters }
    openapiPath := "/notes/"
    serverUrl := some "http://s" }

/-- A call to the slash-terminated tool. -/
def cex6Call : ToolCall :=
  { id := "call_9", function := { name := "notes", arguments := "\x7b\x7d" } }

/-- A call resolved through the fallback path (no matching descriptor), used
by the C6 witness. -/
def w6Call : ToolCall :=
  { id := "call_3", function := { name := "lookup", arguments := "\x7b\x7d" } }

/-- Dispatch primitives for the C1 witness: arguments parse unless literally
`bad`; POSTs to the `down` tool's endpoints fail, everything else succeeds. -/
def w1Env : DispatchEnv :=
  { parseJson := fun s =>
      if s = "bad" then .error "Unexpected end of JSON input" else .ok (Json.obj [])
    stringify := fun _ => "\x7b\x7d"
    post := fun url _ =>
      if url = "http://s/down" ∨ url = "http://s/down/" then
        .error "Request failed with status code 500"
      else .ok (Json.str "ok") }

/-- A descriptor whose provider endpoint is failing. -/
def w1DownTool : Tool :=
  { type := "function"
    function := some { name := "down", description := none, parameters := defaultToolParameters }
    openapiPath := "/down"
    serverUrl := some "http://s" }

/-- A call that succeeds (fallback path, successful POST). -/
def w1CallA : ToolCall :=
  { id := "a1", function := { name := "up", arguments := "\x7b\x7d" } }

/-- A call whose invocation fails on both endpoint attempts. -/
def w1CallB : ToolCall :=
  { id := "b2", function := { name := "down", arguments := "\x7b\x7d" } }

/-- Fetch oracle for the C4 witness: two reachable providers declaring the
same `get_weather_post` operation. -/
def w4Fetch : String → Except String (Option OpenAPISchema) := fun url =>
  if url = "http://a" then .ok (some (weatherSchema "get_weather_post"))
  else if url = "http://b" then .ok (some (weatherSchema "get_weather_post"))
  else .error "getaddrinfo ENOTFOUND"

/-- The `function` member both providers produce for `get_weather_post`. -/
def w4Fun : ToolFunction :=
  { name := "get-weather"
    description := some "Get the current weather for a city."
    parameters :=
      { type := "object", properties := weatherComponent.properties, required := ["city"] } }

/-- The descriptor contributed by the first provider, `http://a`. -/
def w4ToolA : Tool :=
  { type := "function", function := some w4Fun
    openapiPath := "/get_weather", serverUrl := some "http://a" }

/-- Fetch oracle for the C5 witness: provider `http://a` unreachable,
provider `http://b` healthy. -/
def w5Fetch : String → Except String (Option OpenAPISchema) := fun url =>
  if url = "http://b" then .ok (some (weatherSchema "get_weather_post"))
  else .error "connect ECONNREFUSED"

/-- The assistant message returned by the first chat call of the C8 witness:
it requests one tool call. -/
def w8Call : ToolCall :=
  { id := "c1", function := { name := "x", arguments := "\x7b\x7d" } }

/-- First-response assistant message (requests tools). -/
def w8Bot : Msg :=
  { role := "assistant", content := none, tool_calls := [w8Call] }

/-- Follow-up assistant message; it again carries a tool call, and must
nevertheless be taken as the turn's final output. -/
def w8Fin : Msg :=
  { role := "assistant", content := some "done", tool_calls := [w8Call] }

/-- The tool result produced for `w8Call` (fallback path, successful POST). -/
def w8Result : Msg :=
  { role := "tool", content := some "null", tool_call_id := some "c1", name := some "x" }

/-- Turn oracles for the C8 witness: the chat endpoint answers the first call
(six request messages: system, four few-shot, one user) with `w8Bot` and any
longer conversation with `w8Fin`; dispatch always succeeds. -/
def w8Env : TurnEnv :=
  { llm := fun p => if p.messages.length = 6 then .ok w8Bot else .ok w8Fin
    dispatch :=
      { parseJson := fun _ => .ok (Json.obj [])
        stringify := fun _ => "null"
        post := fun _ _ => .ok Json.null } }

/-- Client state for the C8 witness: fresh session, non-empty input. -/
def w8State : AppState :=
  { messages := [], input := " hey ", files := [], tools := [] }

/-- Turn oracles for the guard witness (never consulted). -/
def w9TurnEnv : TurnEnv :=
  { llm := fun _ => .error { responseData := none, message := none }
    dispatch :=
      { parseJson := fun _ => .ok Json.null
        stringify := fun _ => "null"
        post := fun _ _ => .ok Json.null } }

/-- Mcpo client state with whitespace-only input and no files. -/
def w9TurnState : AppState :=
  { messages := [{ role := "assistant", content := some "hello" }]
    input := "   ", files := [], tools := [] }

end McpoApp

namespace AgentApp

/-- Agent-service oracle for the C3 witness. -/
def w3Env : AgentEnv :=
  { chat := fun _ => .ok "Sunny.", stringify := fun _ => "" }

/-- Client state for the C3 witness: three known groups, one disabled, one
unmapped group name in no list. -/
def w3State : AppState :=
  { messages := [], input := " hi ", files := []
    tools := { langgraph := [{ name := "web" }, { name := "math" }], mcpo := [{ name := "time" }] }
    enabledTools := [("web", true), ("math", false), ("time", true)]
    systemPrompt := "You are a helpful assistant.", isLoading := false }

/-- Agent-service oracle for the guard witness (never consulted). -/
def w9AgentEnv : AgentEnv :=
  { chat := fun _ => .ok "ok", stringify := fun _ => "" }

/-- Agent client state with whitespace-only input and no files. -/
def w9AgentState : AppState :=
  { messages := [], input := "  ", files := []
    tools := { langgraph := [], mcpo := [] }
    enabledTools := [], systemPrompt := "s", isLoading := false }

end AgentApp

namespace McpoApp

/-- Operation with no request body at all, for the C10 witness. -/
def w10OpNoBody : Operation :=
  { operationId := some "ping_post", description := none, summary := some "Ping"
    requestBody := none }

/-- Operation whose JSON request body carries an inline (non-`$ref`) schema,
for the C10 witness. -/
def w10OpInline : Operation :=
  { operationId := some "echo_post", description := none, summary := none
    requestBody := some
      { content := some [("application/json", { schema := some { ref := none } })] } }

/-- A capability schema whose single POST operation lacks an `operationId`:
line 355 throws before anything is derived. -/
def cex10NoOpId : OpenAPISchema :=
  { paths := some [("/broken",
      [("post",
        { operationId := none, description := none, summary := none
          requestBody := none })])]
    components := some { schemas := [] } }

/-- A capability schema whose `application/json` media-type object has no
`schema` member: line 361 throws while reading `['$ref']`. -/
def cex10NoSchemaMember : OpenAPISchema :=
  { paths := some [("/broken2",
      [("post",
        { operationId := some "broken2_post", description := none, summary := none
          requestBody := some
            { content := some [("application/json", { schema := none })] } })])]
    components := some { schemas := [] } }

/-- A capability schema carrying a `$ref` but no `components`: line 364
throws while reading `.schemas`. -/
def cex10NoComponents : OpenAPISchema :=
  { paths := some [("/broken3",
      [("post",
        { operationId := some "broken3_post", description := none, summary := none
          requestBody := some
            { content := some [("application/json",
                { schema := some { ref := some "#/components/schemas/X" } })] } })])]
    components := none }

end McpoApp

/-!
Claim theorems.
-/

/-- Claim C2, counterexample: the aggregator only strips the suffix `_post`,
so the operation id `get_weather_create` normalizes to `get-weather-create`,
not to `get-weather` as the claim states. -/
theorem McpoApp.create_suffix_not_stripped :
    (McpoApp.processOpenAPISchema (some (McpoApp.weatherSchema "get_weather_create"))).map
        (fun ts => ts.map fun t => (t.function.map fun f => f.name).getD "") =
      .ok ["get-weather-create"] ∧
    McpoApp.normalizeOperationId "get_weather_create" ≠ "get-weather" :=
  ⟨rfl, by decide⟩

/-- Claim C2, amended: the write-style suffix the aggregator strips is
`_post`; a capability schema whose operation id is `get_weather_post`
normalizes to tool name `get-weather`, with the parameter schema taken from
the referenced request-body component's properties and required fields. -/
theorem McpoApp.post_suffix_normalization_pinned :
    McpoApp.processOpenAPISchema (some (McpoApp.weatherSchema "get_weather_post")) =
      Except.ok
        [{ type := "function"
           function := some
             { name := "get-weather"
               description := some "Get the current weather for a city."
               parameters :=
                 { type := "object"
                   properties := McpoApp.weatherComponent.properties
                   required := ["city"] } }
           openapiPath := "/get_weather"
           serverUrl := none }] :=
  rfl

/-- Claim C7, counterexample: the splicing does not round-trip.  Two distinct
attachment lists — a single file whose content itself contains the separator
and the header line, versus two separate files — assemble to the identical
user-message string, so no consumer can recover the file boundaries from the
assembled string alone. -/
theorem assembled_content_not_recoverable_by_splitting :
    assembleApiContent "q" [⟨"a", "X\n\n---\n\nCONTEXT FROM FILE: b\n\n---\n\nY"⟩] =
      assembleApiContent "q" [⟨"a", "X"⟩, ⟨"b", "Y"⟩] ∧
    ([⟨"a", "X\n\n---\n\nCONTEXT FROM FILE: b\n\n---\n\nY"⟩] : List FileEntry) ≠
      [⟨"a", "X"⟩, ⟨"b", "Y"⟩] :=
  ⟨rfl, by decide⟩

/-- Claim C7, amended: the assembled user-message content is produced exactly
by the literal splicing template the spec gives (deterministically), but
splitting on the literal separator does not in general recover the individual
file boundaries — recovery fails when a file's content itself contains the
separator. -/
theorem assembled_content_matches_literal_template
    (files : List FileEntry) (typedText : String) (h : files ≠ []) :
    assembleApiContent typedText files = specAssembledUserContent files typedText := by
  have hlen : files.length > 0 := List.length_pos.mpr h
  unfold assembleApiContent specAssembledUserContent
  rw [if_pos hlen]

/-- Witness for the amended C7 theorem, at the spec's own §8 example. -/
theorem assembled_content_matches_literal_template_witness :
    assembleApiContent "hi" [⟨"f.txt", "ABC"⟩] =
      specAssembledUserContent [⟨"f.txt", "ABC"⟩] "hi" ∧
    assembleApiContent "hi" [⟨"f.txt", "ABC"⟩] =
      "CONTEXT FROM FILE: f.txt\n\n---\n\nABC\n\n---\n\nQUESTION:\nhi" :=
  ⟨assembled_content_matches_literal_template [⟨"f.txt", "ABC"⟩] "hi" (by decide), rfl⟩

/-- Claim C9: when the trimmed input is empty and no files are attached,
`sendMessage` returns before doing anything in both client variants: the
state (message history, input, file list, loading flag) is unchanged, no
request payload is issued and no model call or dispatch round happens. -/
theorem empty_input_guard_is_noop
    (env1 : AgentApp.AgentEnv) (st1 : AgentApp.AppState)
    (env2 : McpoApp.TurnEnv) (st2 : McpoApp.AppState)
    (h1 : strTrim st1.input = "" ∧ st1.files = [])
    (h2 : strTrim st2.input = "" ∧ st2.files = []) :
    AgentApp.sendMessage env1 st1 = (st1, none) ∧
    McpoApp.sendMessage env2 st2 = (st2, []) := by
  constructor
  · unfold AgentApp.sendMessage
    rw [if_pos h1]
  · unfold McpoApp.sendMessage
    rw [if_pos h2]

/-- Witness for the C9 guard theorem at concrete whitespace-only states. -/
theorem empty_input_guard_is_noop_witness :
    AgentApp.sendMessage AgentApp.w9AgentEnv AgentApp.w9AgentState =
      (AgentApp.w9AgentState, none) ∧
    McpoApp.sendMessage McpoApp.w9TurnEnv McpoApp.w9TurnState =
      (McpoApp.w9TurnState, []) :=
  empty_input_guard_is_noop AgentApp.w9AgentEnv AgentApp.w9AgentState
    McpoApp.w9TurnEnv McpoApp.w9TurnState ⟨by decide, rfl⟩ ⟨by decide, rfl⟩

/-- Helper: a name in the filtered-and-mapped enabled list has a `true` entry
in the enablement map (an unmapped name reads as falsy and a `false` entry
fails the filter). -/
theorem AgentApp.mem_enabled_names_lookup
    (enabledTools : List (String × Bool)) (modules : List AgentApp.ModuleInfo) (n : String)
    (hn : n ∈ (modules.filter fun m => AgentApp.lookupEnabled enabledTools m.name).map
      fun m => m.name) :
    enabledTools.lookup n = some true := by
  simp only [List.mem_map] at hn
  obtain ⟨m, hm, rfl⟩ := hn
  rw [List.mem_filter] at hm
  have h2 := hm.2
  unfold AgentApp.lookupEnabled at h2
  cases hl : enabledTools.lookup m.name with
  | none => rw [hl] at h2; simp at h2
  | some b => rw [hl] at h2; simp at h2; rw [h2]

/-- Claim C3: whenever the agent-service `sendMessage` issues a request, both
`enabled_tools` name lists of its payload contain only group names mapped to
`true` in the enablement map; names of disabled or unmapped groups are never
included. -/
theorem AgentApp.payload_contains_only_enabled_groups
    (env : AgentApp.AgentEnv) (st : AgentApp.AppState) (payload : AgentApp.ChatPayload)
    (hp : (AgentApp.sendMessage env st).2 = some payload) :
    (∀ n ∈ payload.enabled_tools.langgraph, st.enabledTools.lookup n = some true) ∧
    (∀ n ∈ payload.enabled_tools.mcpo, st.enabledTools.lookup n = some true) := by
  have hpay : payload =
      AgentApp.mkChatPayload st (assembleApiContent (strTrim st.input) st.files) := by
    unfold AgentApp.sendMessage at hp
    by_cases hg : strTrim st.input = "" ∧ st.files = []
    · rw [if_pos hg] at hp
      cases hp
    · rw [if_neg hg] at hp
      dsimp only at hp
      cases hc : env.chat (AgentApp.mkChatPayload st (assembleApiContent (strTrim st.input) st.files)) with
      | ok r => rw [hc] at hp; simp at hp; exact hp.symm
      | error r => rw [hc] at hp; simp at hp; exact hp.symm
  subst hpay
  constructor
  · intro n hn
    exact AgentApp.mem_enabled_names_lookup st.enabledTools st.tools.langgraph n hn
  · intro n hn
    exact AgentApp.mem_enabled_names_lookup st.enabledTools st.tools.mcpo n hn

/-- Witness for the C3 theorem at a concrete state: the enabled groups `web`
and `time` are indeed mapped to `true` (the disabled `math` is filtered out). -/
theorem AgentApp.payload_contains_only_enabled_groups_witness :
    AgentApp.w3State.enabledTools.lookup "web" = some true ∧
    AgentApp.w3State.enabledTools.lookup "time" = some true :=
  ⟨(AgentApp.payload_contains_only_enabled_groups AgentApp.w3Env AgentApp.w3State _ rfl).1
      "web" (by decide),
   (AgentApp.payload_contains_only_enabled_groups AgentApp.w3Env AgentApp.w3State _ rfl).2
      "time" (by decide)⟩

/-- Helper: the dedup loop yields pairwise-distinct names, all of them
outside the incoming `seen` set. -/
theorem McpoApp.dedupLoop_names_nodup (l : List McpoApp.Tool) (seen : List String) :
    (McpoApp.toolNames (McpoApp.dedupLoop l seen)).Nodup ∧
    ∀ n ∈ McpoApp.toolNames (McpoApp.dedupLoop l seen), n ∉ seen := by
  induction l generalizing seen with
  | nil => simp [McpoApp.dedupLoop, McpoApp.toolNames]
  | cons t rest ih =>
    cases hf : t.function with
    | none => simpa [McpoApp.dedupLoop, hf] using ih seen
    | some f =>
      by_cases hs : f.name ∈ seen
      · simpa [McpoApp.dedupLoop, hf, hs] using ih seen
      · have ihr := ih (f.name :: seen)
        have hnames : McpoApp.toolNames (McpoApp.dedupLoop (t :: rest) seen) =
            f.name :: McpoApp.toolNames (McpoApp.dedupLoop rest (f.name :: seen)) := by
          simp [McpoApp.dedupLoop, hf, hs, McpoApp.toolNames]
        rw [hnames]
        constructor
        · rw [List.nodup_cons]
          refine ⟨fun hmem => ?_, ihr.1⟩
          have := ihr.2 f.name hmem
          simp at this
        · intro n hn
          rcases List.mem_cons.mp hn with h | h
          · exact h ▸ hs
          · have hni := ihr.2 n h
            intro hcon
            exact hni (List.mem_cons_of_mem _ hcon)

/-- Helper: every tool kept by the dedup loop is the first element of the
input list bearing its name (and its name was not previously seen). -/
theorem McpoApp.dedupLoop_first_wins (l : List McpoApp.Tool) (seen : List String)
    (t : McpoApp.Tool) (f : McpoApp.ToolFunction)
    (ht : t ∈ McpoApp.dedupLoop l seen) (hf : t.function = some f) :
    f.name ∉ seen ∧ l.find? (McpoApp.nameMatches f.name) = some t := by
  induction l generalizing seen with
  | nil => simp [McpoApp.dedupLoop] at ht
  | cons u rest ih =>
    cases hu : u.function with
    | none =>
      simp only [McpoApp.dedupLoop, hu] at ht
      obtain ⟨h1, h2⟩ := ih seen ht
      refine ⟨h1, ?_⟩
      rw [List.find?_cons_of_neg, h2]
      simp [McpoApp.nameMatches, hu]
    | some g =>
      by_cases hs : g.name ∈ seen
      · simp only [McpoApp.dedupLoop, hu] at ht
        rw [if_pos (by simpa using hs)] at ht
        obtain ⟨h1, h2⟩ := ih seen ht
        have hne : g.name ≠ f.name := fun he => h1 (he ▸ hs)
        refine ⟨h1, ?_⟩
        rw [List.find?_cons_of_neg, h2]
        simp [McpoApp.nameMatches, hu, hne]
      · simp only [McpoApp.dedupLoop, hu] at ht
        rw [if_neg (by simpa using hs)] at ht
        rcases List.mem_cons.mp ht with rfl | ht
        · rw [hu] at hf
          injection hf with hfg
          subst hfg
          refine ⟨hs, ?_⟩
          rw [List.find?_cons_of_pos]
          simp [McpoApp.nameMatches, hu]
        · obtain ⟨h1, h2⟩ := ih (g.name :: seen) ht
          have hne : f.name ≠ g.name := fun he => h1 (he ▸ List.mem_cons_self _ _)
          refine ⟨fun hc => h1 (List.mem_cons_of_mem _ hc), ?_⟩
          rw [List.find?_cons_of_neg, h2]
          simp only [McpoApp.nameMatches, hu, beq_eq_false_iff_ne, ne_eq, Bool.not_eq_true]
          exact fun he => hne he.symm

/-- Claim C4: for every provider list and fetch outcome, the aggregated
descriptor set has pairwise-distinct tool names; every kept descriptor is the
first occurrence of its name in provider processing order (later duplicates
are dropped). -/
theorem McpoApp.aggregated_names_unique_first_wins
    (fetchSchema : String → Except String (Option McpoApp.OpenAPISchema))
    (mcpoServers : List String) :
    (McpoApp.toolNames (McpoApp.fetchAllTools fetchSchema mcpoServers).tools).Nodup ∧
    ∀ t ∈ (McpoApp.fetchAllTools fetchSchema mcpoServers).tools,
      ∀ f, t.function = some f →
        (McpoApp.collectAllTools fetchSchema mcpoServers).1.find?
          (McpoApp.nameMatches f.name) = some t := by
  constructor
  · exact (McpoApp.dedupLoop_names_nodup
      (McpoApp.collectAllTools fetchSchema mcpoServers).1 []).1
  · intro t ht f hf
    exact (McpoApp.dedupLoop_first_wins
      (McpoApp.collectAllTools fetchSchema mcpoServers).1 [] t f ht hf).2

/-- Witness for the C4 theorem: two providers both declaring `get-weather`;
the kept descriptor is the one from `http://a`, the provider processed
first. -/
theorem McpoApp.aggregated_names_unique_first_wins_witness :
    (McpoApp.toolNames
      (McpoApp.fetchAllTools McpoApp.w4Fetch ["http://a", "http://b"]).tools).Nodup ∧
    (McpoApp.collectAllTools McpoApp.w4Fetch ["http://a", "http://b"]).1.find?
      (McpoApp.nameMatches McpoApp.w4Fun.name) = some McpoApp.w4ToolA :=
  ⟨(McpoApp.aggregated_names_unique_first_wins McpoApp.w4Fetch ["http://a", "http://b"]).1,
   (McpoApp.aggregated_names_unique_first_wins McpoApp.w4Fetch ["http://a", "http://b"]).2
     McpoApp.w4ToolA
     (by show McpoApp.w4ToolA ∈ [McpoApp.w4ToolA]; exact List.mem_singleton_self _)
     McpoApp.w4Fun rfl⟩

/-- Helper: a descriptor successfully built for one operation carries a
`function` member. -/
theorem McpoApp.mkTool_ok_function_isSome
    (schema : McpoApp.OpenAPISchema) (path : String) (toolInfo : McpoApp.Operation)
    (tool : McpoApp.Tool) (h : McpoApp.mkTool schema path toolInfo = .ok tool) :
    tool.function.isSome = true := by
  unfold McpoApp.mkTool at h
  cases hop : toolInfo.operationId with
  | none => rw [hop] at h; cases h
  | some opId =>
    rw [hop] at h
    cases hpar : McpoApp.operationParameters schema toolInfo with
    | error e => rw [hpar] at h; cases h
    | ok parameters =>
      rw [hpar] at h
      injection h with h
      subst h
      rfl

/-- Helper: a successfully completed walk yields descriptors that all carry
a `function` member. -/
theorem McpoApp.walkOperations_function_isSome
    (schema : McpoApp.OpenAPISchema) (l : List (String × McpoApp.Operation))
    (ts : List McpoApp.Tool) (h : McpoApp.walkOperations schema l = .ok ts) :
    ∀ t ∈ ts, t.function.isSome = true := by
  induction l generalizing ts with
  | nil =>
    injection h with h
    subst h
    simp
  | cons p rest ih =>
    obtain ⟨path, toolInfo⟩ := p
    unfold McpoApp.walkOperations at h
    cases hmk : McpoApp.mkTool schema path toolInfo with
    | error e => rw [hmk] at h; cases h
    | ok tool =>
      rw [hmk] at h
      cases hw : McpoApp.walkOperations schema rest with
      | error e => rw [hw] at h; cases h
      | ok tools =>
        rw [hw] at h
        injection h with h
        subst h
        intro t ht
        rcases List.mem_cons.mp ht with rfl | ht
        · exact McpoApp.mkTool_ok_function_isSome schema path toolInfo t hmk
        · exact ih tools hw t ht

/-- Helper: a successfully completed walk yields one descriptor per listed
operation. -/
theorem McpoApp.walkOperations_length
    (schema : McpoApp.OpenAPISchema) (l : List (String × McpoApp.Operation))
    (ts : List McpoApp.Tool) (h : McpoApp.walkOperations schema l = .ok ts) :
    ts.length = l.length := by
  induction l generalizing ts with
  | nil =>
    injection h with h
    subst h
    rfl
  | cons p rest ih =>
    obtain ⟨path, toolInfo⟩ := p
    unfold McpoApp.walkOperations at h
    cases hmk : McpoApp.mkTool schema path toolInfo with
    | error e => rw [hmk] at h; cases h
    | ok tool =>
      rw [hmk] at h
      cases hw : McpoApp.walkOperations schema rest with
      | error e => rw [hw] at h; cases h
      | ok tools =>
        rw [hw] at h
        injection h with h
        subst h
        simp [ih tools hw]

/-- Helper: every descriptor produced by a successful schema walk carries a
`function` member. -/
theorem McpoApp.processOpenAPISchema_function_isSome
    (schemaOpt : Option McpoApp.OpenAPISchema) (ts : List McpoApp.Tool)
    (h : McpoApp.processOpenAPISchema schemaOpt = .ok ts) :
    ∀ t ∈ ts, t.function.isSome = true := by
  cases schemaOpt with
  | none =>
    injection h with h
    subst h
    simp
  | some schema =>
    unfold McpoApp.processOpenAPISchema at h
    dsimp only at h
    cases hp : schema.paths with
    | none =>
      rw [hp] at h
      injection h with h
      subst h
      simp
    | some paths =>
      rw [hp] at h
      exact McpoApp.walkOperations_function_isSome schema _ ts h

/-- Helper: dedup of a non-empty list of descriptors that all carry a
`function` member is non-empty (the first descriptor always survives). -/
theorem McpoApp.dedupTools_ne_nil (l : List McpoApp.Tool) (hne : l ≠ [])
    (hall : ∀ t ∈ l, t.function.isSome = true) :
    McpoApp.dedupTools l ≠ [] := by
  cases l with
  | nil => exact absurd rfl hne
  | cons t rest =>
    have hf := hall t (List.mem_cons_self _ _)
    cases hft : t.function with
    | none => rw [hft] at hf; simp at hf
    | some f => simp [McpoApp.dedupTools, McpoApp.dedupLoop, hft]

/-- Claim C5: if provider A's capability fetch fails and provider B's
succeeds, aggregation completes and returns exactly B's tools — the same
result as aggregating over B alone — and whenever B's schema walks
successfully to at least one tool, the could-not-load-tools error banner is
not shown. -/
theorem McpoApp.partial_failure_returns_successful_tools
    (fetchSchema : String → Except String (Option McpoApp.OpenAPISchema))
    (serverA serverB e : String) (sb : Option McpoApp.OpenAPISchema)
    (hA : fetchSchema serverA = .error e) (hB : fetchSchema serverB = .ok sb) :
    (McpoApp.fetchAllTools fetchSchema [serverA, serverB]).tools =
      (McpoApp.fetchAllTools fetchSchema [serverB]).tools ∧
    ∀ tb, McpoApp.processOpenAPISchema sb = .ok tb →
      (McpoApp.fetchAllTools fetchSchema [serverA, serverB]).tools =
        McpoApp.dedupTools (tb.map (McpoApp.attachServer serverB)) ∧
      (tb ≠ [] →
        McpoApp.errorBannerShown
          (McpoApp.fetchAllTools fetchSchema [serverA, serverB]) = false) := by
  have hskip : (McpoApp.collectAllTools fetchSchema [serverA, serverB]).1 =
      (McpoApp.collectAllTools fetchSchema [serverB]).1 := by
    simp [McpoApp.collectAllTools, hA]
  constructor
  · show McpoApp.dedupTools (McpoApp.collectAllTools fetchSchema [serverA, serverB]).1 =
      McpoApp.dedupTools (McpoApp.collectAllTools fetchSchema [serverB]).1
    rw [hskip]
  · intro tb hw
    have hcol : (McpoApp.collectAllTools fetchSchema [serverA, serverB]).1 =
        tb.map (McpoApp.attachServer serverB) := by
      simp [McpoApp.collectAllTools, hA, hB, hw]
    refine ⟨?_, ?_⟩
    · show McpoApp.dedupTools (McpoApp.collectAllTools fetchSchema [serverA, serverB]).1 = _
      rw [hcol]
    · intro hne
      have htne : (McpoApp.fetchAllTools fetchSchema [serverA, serverB]).tools ≠ [] := by
        show McpoApp.dedupTools (McpoApp.collectAllTools fetchSchema [serverA, serverB]).1 ≠ []
        rw [hcol]
        apply McpoApp.dedupTools_ne_nil
        · intro hmap
          exact hne (List.map_eq_nil_iff.mp hmap)
        · intro t htm
          rw [List.mem_map] at htm
          obtain ⟨u, hu, rfl⟩ := htm
          exact McpoApp.processOpenAPISchema_function_isSome sb tb hw u hu
      rcases hcase : (McpoApp.fetchAllTools fetchSchema [serverA, serverB]).tools with _ | ⟨x, xs⟩
      · exact absurd hcase htne
      · simp [McpoApp.errorBannerShown, hcase]

/-- Witness for the C5 theorem: `http://a` unreachable, `http://b` healthy
with one weather tool; the aggregate equals aggregating over B alone and no
error banner is shown. -/
theorem McpoApp.partial_failure_returns_successful_tools_witness :
    (McpoApp.fetchAllTools McpoApp.w5Fetch ["http://a", "http://b"]).tools =
      (McpoApp.fetchAllTools McpoApp.w5Fetch ["http://b"]).tools ∧
    McpoApp.errorBannerShown
      (McpoApp.fetchAllTools McpoApp.w5Fetch ["http://a", "http://b"]) = false :=
  ⟨(McpoApp.partial_failure_returns_successful_tools McpoApp.w5Fetch "http://a" "http://b"
      "connect ECONNREFUSED" (some (McpoApp.weatherSchema "get_weather_post")) rfl rfl).1,
   (((McpoApp.partial_failure_returns_successful_tools McpoApp.w5Fetch "http://a" "http://b"
      "connect ECONNREFUSED" (some (McpoApp.weatherSchema "get_weather_post")) rfl rfl).2
     _ rfl).2 (List.cons_ne_nil _ _))⟩

/-- Claim C6, counterexample: for an invocation path that already ends in a
trailing slash, the second attempt targets the *same* URL again — the
slash-stripped variant is never tried, contradicting the claimed toggle. -/
theorem McpoApp.trailing_slash_path_retried_unchanged :
    (McpoApp.dispatchOne McpoApp.cex6Env [McpoApp.cex6Tool] McpoApp.cex6Call).map
        (fun x => x.2) = .ok ["http://s/notes/", "http://s/notes/"] ∧
    (["http://s/notes/", "http://s/notes/"] : List String) ≠
      ["http://s/notes/", "http://s/notes"] :=
  ⟨rfl, by decide⟩

/-- Claim C6, amended: when the POST to the resolved invocation path fails,
the dispatcher makes exactly one retry before producing an error result; the
retry targets the path with a trailing slash appended when the path does not
already end in `/`, and the *same* path again when it does (the slash is
never removed).  After the retry also fails, the call's result carries the
second error as its content. -/
theorem McpoApp.retry_targets_slash_appended_variant
    (env : McpoApp.DispatchEnv) (tools : List McpoApp.Tool) (toolCall : McpoApp.ToolCall)
    (toolArgs : Json) (serverUrl path e1 e2 : String)
    (hres : McpoApp.resolveTarget tools toolCall.function.name = (serverUrl, path))
    (hparse : env.parseJson toolCall.function.arguments = .ok toolArgs)
    (h1 : env.post (serverUrl ++ path) toolArgs = .error e1)
    (h2 : env.post (serverUrl ++ (if strEndsWith path "/" then path else path ++ "/")) toolArgs
      = .error e2) :
    McpoApp.dispatchOne env tools toolCall = .ok
      ({ role := "tool", content := some ("Error executing tool: " ++ e2),
         tool_call_id := some toolCall.id, name := some toolCall.function.name },
       [serverUrl ++ path,
        serverUrl ++ (if strEndsWith path "/" then path else path ++ "/")]) := by
  unfold McpoApp.dispatchOne
  rw [hparse]
  dsimp only
  rw [hres]
  simp only [McpoApp.mkEndpoints, McpoApp.tryEndpoints, h1, h2]
  simp [Option.getD]

/-- Witness for the amended C6 theorem: a call resolved through the fallback
path `/mcpo/lookup` (no trailing slash) whose POSTs all fail; the two
attempts are the path and its slash-appended variant, and the result is the
error-content tool message. -/
theorem McpoApp.retry_targets_slash_appended_variant_witness :
    McpoApp.dispatchOne McpoApp.cex6Env [] McpoApp.w6Call = .ok
      ({ role := "tool",
         content := some "Error executing tool: Request failed with status code 404",
         tool_call_id := some "call_3", name := some "lookup" },
       ["/mcpo/lookup", "/mcpo/lookup/"]) :=
  McpoApp.retry_targets_slash_appended_variant McpoApp.cex6Env [] McpoApp.w6Call
    (Json.obj []) "/mcpo" "/lookup" "Request failed with status code 404"
    "Request failed with status code 404" rfl rfl rfl rfl

/-- Helper: a call whose arguments parse always settles into a fulfilled
result message carrying its call id and tool name, with content present
(success payload or error description). -/
theorem McpoApp.dispatchOne_result_fields
    (env : McpoApp.DispatchEnv) (tools : List McpoApp.Tool) (c : McpoApp.ToolCall)
    (h : (env.parseJson c.function.arguments).isOk = true) :
    ∃ r attempts, McpoApp.dispatchOne env tools c = .ok (r, attempts) ∧
      r.tool_call_id = some c.id ∧ r.name = some c.function.name ∧
      r.role = "tool" ∧ r.content.isSome = true := by
  unfold McpoApp.dispatchOne
  cases hp : env.parseJson c.function.arguments with
  | error e => rw [hp] at h; simp [Except.isOk, Except.toBool] at h
  | ok args =>
    dsimp only
    split
    · exact ⟨_, _, rfl, rfl, rfl, rfl, rfl⟩
    · exact ⟨_, _, rfl, rfl, rfl, rfl, rfl⟩

/-- Helper: the batch join on a cons cell, when the head call fulfils and the
tail batch fulfils. -/
theorem McpoApp.dispatchToolCalls_cons_ok
    (env : McpoApp.DispatchEnv) (tools : List McpoApp.Tool) (c : McpoApp.ToolCall)
    (cs : List McpoApp.ToolCall) (x : McpoApp.Msg × List String) (rs : List McpoApp.Msg)
    (hc : McpoApp.dispatchOne env tools c = .ok x)
    (hcs : McpoApp.dispatchToolCalls env tools cs = .ok rs) :
    McpoApp.dispatchToolCalls env tools (c :: cs) = .ok (x.1 :: rs) := by
  unfold McpoApp.dispatchToolCalls at hcs ⊢
  dsimp only at hcs ⊢
  rw [List.map_cons, List.findSome?_cons, hc]
  dsimp only
  cases hfind : List.findSome?
      (fun r => match r with | Except.error e => some e | Except.ok _ => none)
      (cs.map fun c => McpoApp.dispatchOne env tools c) with
  | some e =>
    rw [hfind] at hcs
    cases hcs
  | none =>
    rw [hfind] at hcs
    dsimp only at hcs ⊢
    injection hcs with hcs
    rw [List.filterMap_cons]
    dsimp only
    rw [hcs]

/-- Claim C1, counterexample: a batch of two tool calls in which the second
call's `arguments` string is malformed JSON.  `JSON.parse` runs outside the
per-call try/catch, so that call's promise rejects, `Promise.all` rejects,
and the dispatcher produces *no* result list at all — the well-formed sibling
call's result (which dispatching it alone would produce) is dropped, instead
of two results with one error-content entry. -/
theorem McpoApp.dispatch_rejects_batch_on_malformed_arguments :
    McpoApp.dispatchToolCalls McpoApp.cex1Env [] [McpoApp.cex1CallA, McpoApp.cex1CallB] =
      .error "Unexpected token o in JSON at position 0" ∧
    (McpoApp.dispatchToolCalls McpoApp.cex1Env []
      [McpoApp.cex1CallA, McpoApp.cex1CallB]).isOk = false ∧
    McpoApp.dispatchOne McpoApp.cex1Env [] McpoApp.cex1CallA = .ok McpoApp.cex1ResultA :=
  ⟨rfl, rfl, rfl⟩

/-- Claim C1, amended: for every dispatch batch in which each call's
`arguments` string parses as JSON, the dispatcher returns exactly N fulfilled
results, one per call in batch order, each carrying the originating call's id
and tool name and a content payload (success text or error description) —
an invocation failure never aborts or drops a sibling's result.  When some
call's arguments do not parse, the whole batch rejects (see the
counterexample). -/
theorem McpoApp.dispatch_returns_one_result_per_call
    (env : McpoApp.DispatchEnv) (tools : List McpoApp.Tool)
    (toolCalls : List McpoApp.ToolCall)
    (h : ∀ c ∈ toolCalls, (env.parseJson c.function.arguments).isOk = true) :
    ∃ results, McpoApp.dispatchToolCalls env tools toolCalls = .ok results ∧
      results.length = toolCalls.length ∧
      List.Forall₂ (fun (c : McpoApp.ToolCall) (r : McpoApp.Msg) =>
        r.tool_call_id = some c.id ∧ r.name = some c.function.name ∧
        r.role = "tool" ∧ r.content.isSome = true) toolCalls results := by
  induction toolCalls with
  | nil => exact ⟨[], rfl, rfl, List.Forall₂.nil⟩
  | cons c cs ih =>
    obtain ⟨r, attempts, hr, hid, hname, hrole, hcontent⟩ :=
      McpoApp.dispatchOne_result_fields env tools c (h c (List.mem_cons_self _ _))
    obtain ⟨rs, hrs, hlen, hall⟩ := ih fun c' hc' => h c' (List.mem_cons_of_mem _ hc')
    exact ⟨r :: rs,
      McpoApp.dispatchToolCalls_cons_ok env tools c cs (r, attempts) rs hr hrs,
      by simp [hlen],
      List.Forall₂.cons ⟨hid, hname, hrole, hcontent⟩ hall⟩

/-- Witness for the amended C1 theorem: a two-call batch in which the second
call fails on both endpoint attempts; both calls' arguments parse, and two
results come back in order. -/
theorem McpoApp.dispatch_returns_one_result_per_call_witness :
    ∃ results, McpoApp.dispatchToolCalls McpoApp.w1Env [McpoApp.w1DownTool]
        [McpoApp.w1CallA, McpoApp.w1CallB] = .ok results ∧
      results.length = [McpoApp.w1CallA, McpoApp.w1CallB].length ∧
      List.Forall₂ (fun (c : McpoApp.ToolCall) (r : McpoApp.Msg) =>
        r.tool_call_id = some c.id ∧ r.name = some c.function.name ∧
        r.role = "tool" ∧ r.content.isSome = true)
        [McpoApp.w1CallA, McpoApp.w1CallB] results :=
  McpoApp.dispatch_returns_one_result_per_call McpoApp.w1Env [McpoApp.w1DownTool]
    [McpoApp.w1CallA, McpoApp.w1CallB] (by decide)

/-- Claim C10, counterexample: schema walking is not total.  A walked POST
operation lacking an `operationId`, an `application/json` media-type object
lacking a `schema` member, and a `$ref` resolved against a document with no
`components` each make the walk throw a TypeError instead of yielding a
descriptor. -/
theorem McpoApp.schema_walk_throws_on_missing_fields :
    McpoApp.processOpenAPISchema (some McpoApp.cex10NoOpId) =
      .error "TypeError: Cannot read properties of undefined (reading 'replace')" ∧
    McpoApp.processOpenAPISchema (some McpoApp.cex10NoSchemaMember) =
      .error "TypeError: Cannot read properties of undefined (reading '$ref')" ∧
    McpoApp.processOpenAPISchema (some McpoApp.cex10NoComponents) =
      .error "TypeError: Cannot read properties of undefined (reading 'schemas')" :=
  ⟨rfl, rfl, rfl⟩

/-- Claim C10, amended: schema walking derives descriptors only from `post`
operations and totality holds short of the source's TypeError paths — a null
schema or one without `paths` yields `[]`; a successful walk yields one
descriptor per POST operation; and a walked operation carrying an
`operationId` whose request body is absent, has no content map, has no
`application/json` entry, or has an inline (non-`$ref`) JSON schema gets the
default parameters object (empty properties, empty required set) rather than
an error.  Operations without an `operationId`, media-type objects without a
`schema` member, and `$ref` resolution without `components` instead throw,
failing that provider (see the counterexample). -/
theorem McpoApp.schema_walk_defaults_post_only :
    McpoApp.processOpenAPISchema none = .ok [] ∧
    (∀ comps, McpoApp.processOpenAPISchema
      (some { paths := none, components := comps }) = .ok []) ∧
    (∀ schema path toolInfo opId, toolInfo.operationId = some opId →
      toolInfo.requestBody = none →
      ((McpoApp.mkTool schema path toolInfo).map fun t =>
        t.function.map fun f => f.parameters) =
          .ok (some McpoApp.defaultToolParameters)) ∧
    (∀ schema path toolInfo opId rb, toolInfo.operationId = some opId →
      toolInfo.requestBody = some rb → rb.content = none →
      ((McpoApp.mkTool schema path toolInfo).map fun t =>
        t.function.map fun f => f.parameters) =
          .ok (some McpoApp.defaultToolParameters)) ∧
    (∀ schema path toolInfo opId rb content, toolInfo.operationId = some opId →
      toolInfo.requestBody = some rb → rb.content = some content →
      content.lookup "application/json" = none →
      ((McpoApp.mkTool schema path toolInfo).map fun t =>
        t.function.map fun f => f.parameters) =
          .ok (some McpoApp.defaultToolParameters)) ∧
    (∀ schema path toolInfo opId rb content mediaType schemaObject,
      toolInfo.operationId = some opId →
      toolInfo.requestBody = some rb → rb.content = some content →
      content.lookup "application/json" = some mediaType →
      mediaType.schema = some schemaObject → schemaObject.ref = none →
      ((McpoApp.mkTool schema path toolInfo).map fun t =>
        t.function.map fun f => f.parameters) =
          .ok (some McpoApp.defaultToolParameters)) ∧
    (∀ schema paths ts, schema.paths = some paths →
      McpoApp.processOpenAPISchema (some schema) = .ok ts →
      ts.length = (paths.map fun p =>
        (p.2.filter fun me => strToLower me.1 == "post").length).sum) := by
  refine ⟨rfl, fun comps => rfl, ?_, ?_, ?_, ?_, ?_⟩
  · intro schema path toolInfo opId hop h
    simp [McpoApp.mkTool, McpoApp.operationParameters, Except.map, hop, h]
  · intro schema path toolInfo opId rb hop h hc
    simp [McpoApp.mkTool, McpoApp.operationParameters, Except.map, hop, h, hc]
  · intro schema path toolInfo opId rb content hop h hc hl
    simp [McpoApp.mkTool, McpoApp.operationParameters, Except.map, hop, h, hc, hl]
  · intro schema path toolInfo opId rb content mediaType schemaObject hop h hc hl hms hr
    simp [McpoApp.mkTool, McpoApp.operationParameters, Except.map, hop, h, hc, hl, hms, hr]
  · intro schema paths ts hp hw
    unfold McpoApp.processOpenAPISchema at hw
    dsimp only at hw
    rw [hp] at hw
    rw [McpoApp.walkOperations_length schema _ ts hw]
    rw [List.length_flatMap]
    apply congrArg
    apply List.map_congr_left
    intro p _
    simp [List.length_map]

/-- Witness for the amended C10 theorem at concrete inputs: null schema, an
operation without a request body, and an operation with an inline
(non-`$ref`) JSON schema. -/
theorem McpoApp.schema_walk_defaults_post_only_witness :
    McpoApp.processOpenAPISchema none = .ok [] ∧
    ((McpoApp.mkTool (McpoApp.weatherSchema "w_post") "/ping" McpoApp.w10OpNoBody).map
      fun t => t.function.map fun f => f.parameters) =
        .ok (some McpoApp.defaultToolParameters) ∧
    ((McpoApp.mkTool (McpoApp.weatherSchema "w_post") "/echo" McpoApp.w10OpInline).map
      fun t => t.function.map fun f => f.parameters) =
        .ok (some McpoApp.defaultToolParameters) :=
  ⟨McpoApp.schema_walk_defaults_post_only.1,
   McpoApp.schema_walk_defaults_post_only.2.2.1 (McpoApp.weatherSchema "w_post") "/ping"
     McpoApp.w10OpNoBody "ping_post" rfl rfl,
   McpoApp.schema_walk_defaults_post_only.2.2.2.2.2.1 (McpoApp.weatherSchema "w_post") "/echo"
     McpoApp.w10OpInline "echo_post"
     { content := some [("application/json", { schema := some { ref := none } })] }
     [("application/json", { schema := some { ref := none } })]
     { schema := some { ref := none } }
     { ref := none }
     rfl rfl rfl rfl rfl rfl⟩

/-- Claim C8: every turn of the mcpo client performs at most two model
invocations and at most one dispatch round; and in the tools path the
follow-up call's assistant message is appended as the turn's final output
with no further dispatch, with no condition whatsoever on whether that
message itself carries tool calls. -/
theorem McpoApp.turn_two_llm_calls_one_dispatch_round
    (env : McpoApp.TurnEnv) (st : McpoApp.AppState) :
    ((McpoApp.sendMessage env st).2.count .llmCall ≤ 2 ∧
     (McpoApp.sendMessage env st).2.count .dispatchRound ≤ 1) ∧
    ∀ botMessage toolResults finalBotMessage,
      ¬(strTrim st.input = "" ∧ st.files = []) →
      env.llm (McpoApp.mkPayload st.tools (McpoApp.apiMessagesOf st.messages
        (assembleApiContent (strTrim st.input) st.files))) = .ok botMessage →
      botMessage.tool_calls.length > 0 →
      McpoApp.dispatchToolCalls env.dispatch st.tools botMessage.tool_calls
        = .ok toolResults →
      env.llm (McpoApp.mkPayload st.tools (McpoApp.apiMessagesOf st.messages
          (assembleApiContent (strTrim st.input) st.files) ++ [botMessage] ++ toolResults))
        = .ok finalBotMessage →
      (McpoApp.sendMessage env st).1.messages =
        st.messages ++ [{ role := "user", content := some (strTrim st.input) }, botMessage]
          ++ toolResults ++ [finalBotMessage] ∧
      (McpoApp.sendMessage env st).2 = [.llmCall, .dispatchRound, .llmCall] := by
  constructor
  · unfold McpoApp.sendMessage
    by_cases hg : strTrim st.input = "" ∧ st.files = []
    · rw [if_pos hg]
      exact ⟨by dsimp only; decide, by dsimp only; decide⟩
    · rw [if_neg hg]
      dsimp only
      split
      · exact ⟨by dsimp only; decide, by dsimp only; decide⟩
      · split
        · split
          · exact ⟨by dsimp only; decide, by dsimp only; decide⟩
          · split
            · exact ⟨by dsimp only; decide, by dsimp only; decide⟩
            · exact ⟨by dsimp only; decide, by dsimp only; decide⟩
        · exact ⟨by dsimp only; decide, by dsimp only; decide⟩
  · intro bot rs fin hng h1 htc h2 h3
    unfold McpoApp.sendMessage
    rw [if_neg hng]
    dsimp only
    rw [h1]
    dsimp only
    rw [if_pos htc, h2]
    dsimp only
    rw [h3]
    dsimp only
    constructor
    · simp
    · rfl

/-- Witness for the C8 theorem: a concrete turn in which the first response
requests one tool call and the follow-up response *also* carries a tool call;
the follow-up message is nevertheless appended as the turn's final output and
the trace shows exactly two model invocations around one dispatch round. -/
theorem McpoApp.turn_two_llm_calls_one_dispatch_round_witness :
    (McpoApp.sendMessage McpoApp.w8Env McpoApp.w8State).1.messages =
      McpoApp.w8State.messages ++
        [{ role := "user", content := some (strTrim McpoApp.w8State.input) }, McpoApp.w8Bot]
        ++ [McpoApp.w8Result] ++ [McpoApp.w8Fin] ∧
    (McpoApp.sendMessage McpoApp.w8Env McpoApp.w8State).2 =
      [.llmCall, .dispatchRound, .llmCall] :=
  (McpoApp.turn_two_llm_calls_one_dispatch_round McpoApp.w8Env McpoApp.w8State).2
    McpoApp.w8Bot [McpoApp.w8Result] McpoApp.w8Fin (by decide) rfl (by decide) rfl rfl
